import Mathlib

/-!
Shallow embedding of the `resas-client` repository (Rust): the error
taxonomy (`src/error.rs` and its duplicate in `src/client.rs`), the retry
policy, and the HTTP client logic of `src/client.rs` (`send_request`,
`send_request_with_retry`, `get`), together with the serde-level JSON
rendering (`serde_json::Value::to_string`) and the `http` crate status-code
display that the client code relies on.

Network effects are modelled by an oracle: each call of `send_request`
consumes one `Transport` value describing what the wire returned (transport
failure, or an HTTP status plus body).  Parsing of the body by
`serde_json::from_str` is modelled by carrying the parsed `Json` value (or a
parse-failure marker) in the oracle; the raw response text returned by
`send_request` on success is represented by that `Json` value.
-/

/-- Opaque causes wrapped inside errors: `reqwest::Error` values (with or
without an HTTP status) and `serde_json::Error` values.  The `tag` fields
keep distinct failure objects distinguishable. -/
inductive Cause where
  | reqwestStatus (code : Nat) : Cause
  | reqwestSend (tag : Nat) : Cause
  | reqwestText (tag : Nat) : Cause
  | serdeParse (tag : Nat) : Cause
  | serdeDecode : Cause
deriving DecidableEq, Repr

/-- Rendering of a cause by its own `Display` implementation (opaque to the
client code; the exact text is irrelevant to every claim, only the fact that
it is appended is). -/
def Cause.display : Cause → String
  | .reqwestStatus code => "HTTP status error " ++ ToString.toString code
  | .reqwestSend tag => "error sending request " ++ ToString.toString tag
  | .reqwestText tag => "error decoding response body " ++ ToString.toString tag
  | .serdeParse tag => "JSON parse error " ++ ToString.toString tag
  | .serdeDecode => "JSON decode error"

/-- `ErrorKind` from `src/error.rs` / `src/client.rs`. -/
inductive ErrorKind where
  | Fatal : ErrorKind
  | Retryable : ErrorKind
deriving DecidableEq, Repr

/-- `Error` from `src/error.rs` / `src/client.rs`: a kind, an optional boxed
cause (`source`) and an optional message. -/
structure Error where
  kind : ErrorKind
  source : Option Cause
  message : Option String
deriving DecidableEq, Repr

/-- `Error::new` from `src/error.rs`. -/
def Error.new (kind : ErrorKind) (source : Option Cause) (message : Option String) : Error :=
  { kind := kind, source := source, message := message }

/-- `Error::is_retriable` from `src/error.rs`. -/
def Error.is_retriable (e : Error) : Bool :=
  match e.kind with
  | .Retryable => true
  | .Fatal => false

/-- `Error::to_fatal` from `src/error.rs`.  The Rust method takes `&mut self`
and moves the cause out with `self.source.take()`; we model it as a pure
function returning both the new error and the state of `self` afterwards. -/
def Error.to_fatal (e : Error) (message : Option String) : Error × Error :=
  ({ kind := .Fatal, source := e.source, message := message },
   { kind := e.kind, source := none, message := e.message })

/-- `impl From<reqwest::Error> for Error` (both files). -/
def Error.fromReqwest (err : Cause) : Error :=
  { kind := .Fatal, source := some err, message := none }

/-- `impl From<serde_json::Error> for Error` (both files). -/
def Error.fromSerde (err : Cause) : Error :=
  { kind := .Fatal, source := some err, message := none }

/-- `impl fmt::Display for Error` from `src/error.rs`: kind prefix (with an
exclamation mark), then the message if present, then the cause if present. -/
def Error.fmtError (e : Error) : String :=
  let f := match e.kind with
    | .Fatal => "Fatal error! "
    | .Retryable => "Retryable error! "
  let f := match e.message with
    | some message => f ++ message
    | none => f
  match e.source with
  | some source => f ++ source.display
  | none => f

/-- `impl fmt::Display for Error` from `src/client.rs`: kind prefix (with a
colon), then the message if present, then the cause if present. -/
def Error.fmtClient (e : Error) : String :=
  let f := match e.kind with
    | .Fatal => "Fatal error: "
    | .Retryable => "Retryable error: "
  let f := match e.message with
    | some message => f ++ message
    | none => f
  match e.source with
  | some source => f ++ source.display
  | none => f

/-- `RetryPolicy` from `src/client.rs`. -/
structure RetryPolicy where
  retriable_codes : List String
  interval : Nat
  attempts : Nat
deriving DecidableEq, Repr

/-- `impl Default for RetryPolicy`: codes `["500", "502"]`, 60 second
interval, 3 attempts. -/
def RetryPolicy.default : RetryPolicy :=
  { retriable_codes := ["500", "502"], interval := 60, attempts := 3 }

/-- JSON values as parsed by `serde_json` (numbers restricted to integers,
the only kind the program ever meets). -/
inductive Json where
  | null : Json
  | bool (b : Bool) : Json
  | num (n : Int) : Json
  | str (s : String) : Json
  | arr (xs : List Json) : Json
  | obj (fields : List (String × Json)) : Json

/-- The escape of one character in serde_json string output: quote and
backslash get a backslash, the usual control-character shorthands apply,
remaining control characters become a lowercase `\u00XX` escape. -/
def Json.escapeChar (c : Char) : List Char :=
  if c = '"' then ['\\', '"']
  else if c = '\\' then ['\\', '\\']
  else if c = '\x08' then ['\\', 'b']
  else if c = '\x0c' then ['\\', 'f']
  else if c = '\n' then ['\\', 'n']
  else if c = '\r' then ['\\', 'r']
  else if c = '\t' then ['\\', 't']
  else if c.toNat < 0x20 then
    ['\\', 'u', '0', '0',
     "0123456789abcdef".data.getD (c.toNat / 16) '0',
     "0123456789abcdef".data.getD (c.toNat % 16) '0']
  else [c]

/-- Escape every character of a string body. -/
def Json.escapeList : List Char → List Char
  | [] => []
  | c :: cs => Json.escapeChar c ++ Json.escapeList cs

/-- serde_json rendering of a JSON string: opening quote, escaped content,
closing quote. -/
def Json.strRender (s : String) : String :=
  String.mk ('"' :: (Json.escapeList s.data ++ ['"']))

mutual

/-- `serde_json::Value`'s `Display`/`to_string`: compact JSON serialization.
In particular a JSON string renders WITH surrounding quotation marks. -/
def Json.toString : Json → String
  | .null => "null"
  | .bool true => "true"
  | .bool false => "false"
  | .num n => ToString.toString n
  | .str s => Json.strRender s
  | .arr xs => "[" ++ Json.arrRender xs ++ "]"
  | .obj fields => "\x7b" ++ Json.objRender fields ++ "\x7d"

/-- Comma-separated rendering of array elements. -/
def Json.arrRender : List Json → String
  | [] => ""
  | [x] => Json.toString x
  | x :: xs => Json.toString x ++ "," ++ Json.arrRender xs

/-- Comma-separated rendering of object fields. -/
def Json.objRender : List (String × Json) → String
  | [] => ""
  | [(k, v)] => Json.strRender k ++ ":" ++ Json.toString v
  | (k, v) :: fields =>
      Json.strRender k ++ ":" ++ Json.toString v ++ "," ++ Json.objRender fields

end

/-- Field lookup in an object's field list (first occurrence). -/
def Json.lookupField (key : String) : List (String × Json) → Option Json
  | [] => none
  | (k, v) :: fields => if k = key then some v else Json.lookupField key fields

/-- `serde_json::Value::get(key)`: `Some` field value on objects that have
the key, `None` otherwise. -/
def Json.get? (v : Json) (key : String) : Option Json :=
  match v with
  | .obj fields => Json.lookupField key fields
  | _ => none

/-- `serde_json::Value`'s `Index` (`value["key"]`): the field value, or
`Null` when the key is missing or the value is not an object. -/
def Json.index (v : Json) (key : String) : Json :=
  match v.get? key with
  | some w => w
  | none => Json.null

/-- Rust `str::starts_with` on strings (character-prefix test). -/
def strStartsWith (s pre : String) : Bool :=
  pre.data.isPrefixOf s.data

/-- `http::StatusCode::canonical_reason`: the canonical reason phrase of a
status code (the table of the `http` crate; codes without a registered
phrase give `none`). -/
def canonicalReason : Nat → Option String
  | 100 => some "Continue"
  | 101 => some "Switching Protocols"
  | 102 => some "Processing"
  | 200 => some "OK"
  | 201 => some "Created"
  | 202 => some "Accepted"
  | 203 => some "Non-Authoritative Information"
  | 204 => some "No Content"
  | 205 => some "Reset Content"
  | 206 => some "Partial Content"
  | 207 => some "Multi-Status"
  | 208 => some "Already Reported"
  | 226 => some "IM Used"
  | 300 => some "Multiple Choices"
  | 301 => some "Moved Permanently"
  | 302 => some "Found"
  | 303 => some "See Other"
  | 304 => some "Not Modified"
  | 305 => some "Use Proxy"
  | 307 => some "Temporary Redirect"
  | 308 => some "Permanent Redirect"
  | 400 => some "Bad Request"
  | 401 => some "Unauthorized"
  | 402 => some "Payment Required"
  | 403 => some "Forbidden"
  | 404 => some "Not Found"
  | 405 => some "Method Not Allowed"
  | 406 => some "Not Acceptable"
  | 407 => some "Proxy Authentication Required"
  | 408 => some "Request Timeout"
  | 409 => some "Conflict"
  | 410 => some "Gone"
  | 411 => some "Length Required"
  | 412 => some "Precondition Failed"
  | 413 => some "Payload Too Large"
  | 414 => some "URI Too Long"
  | 415 => some "Unsupported Media Type"
  | 416 => some "Range Not Satisfiable"
  | 417 => some "Expectation Failed"
  | 418 => some "I\x27m a teapot"
  | 421 => some "Misdirected Request"
  | 422 => some "Unprocessable Entity"
  | 423 => some "Locked"
  | 424 => some "Failed Dependency"
  | 426 => some "Upgrade Required"
  | 428 => some "Precondition Required"
  | 429 => some "Too Many Requests"
  | 431 => some "Request Header Fields Too Large"
  | 451 => some "Unavailable For Legal Reasons"
  | 500 => some "Internal Server Error"
  | 501 => some "Not Implemented"
  | 502 => some "Bad Gateway"
  | 503 => some "Service Unavailable"
  | 504 => some "Gateway Timeout"
  | 505 => some "HTTP Version Not Supported"
  | 506 => some "Variant Also Negotiates"
  | 507 => some "Insufficient Storage"
  | 508 => some "Loop Detected"
  | 510 => some "Not Extended"
  | 511 => some "Network Authentication Required"
  | _ => none

/-- `http::StatusCode`'s `Display` (hence `to_string()`): the numeric code
followed by a space and the canonical reason phrase — e.g.
`"500 Internal Server Error"`, NOT `"500"`. -/
def statusCodeToString (code : Nat) : String :=
  ToString.toString code ++ " " ++ (canonicalReason code).getD "<unknown status code>"

/-- `reqwest`'s `Response::error_for_status` fails exactly on client-error
(4xx) and server-error (5xx) statuses. -/
def isHttpError (status : Nat) : Bool :=
  (400 ≤ status && status ≤ 499) || (500 ≤ status && status ≤ 599)

/-- What happened to the body of an HTTP response that reached us:
`response.text()` failed, `serde_json::from_str` failed, or the text parsed
to a JSON value (which then also stands for the raw text itself). -/
inductive Body where
  | textErr (err : Cause) : Body
  | parseErr (err : Cause) : Body
  | json (v : Json) : Body

/-- One observation of the wire for one `send_request` call: either
`.send()` itself failed, or a response with some HTTP status and body came
back. -/
inductive Transport where
  | sendErr (err : Cause) : Transport
  | responded (status : Nat) (body : Body) : Transport

/-- `Client::send_request` from `src/client.rs`, with the wire modelled by a
`Transport` observation.  Follows the source line by line:
transport failure propagates through `From<reqwest::Error>`;
`error_for_status` failures are `Retryable` when the status's `to_string()`
is in the retryable-code set, otherwise converted `Fatal`; on HTTP success
the parsed body's `statusCode` field (if any) is classified by its
`to_string()` against the set and against the prefix `"2"`. -/
def send_request (policy : RetryPolicy) (t : Transport) : Except Error Json :=
  match t with
  | .sendErr err => .error (Error.fromReqwest err)
  | .responded status body =>
    if isHttpError status then
      -- `Err(err)` branch of `error_for_status`; `err.status()` is the status.
      if policy.retriable_codes.contains (statusCodeToString status) then
        .error { kind := .Retryable,
                 source := some (Cause.reqwestStatus status),
                 message := some ("Status code " ++ statusCodeToString status) }
      else
        .error (Error.fromReqwest (Cause.reqwestStatus status))
    else
      match body with
      | .textErr err => .error (Error.fromReqwest err)
      | .parseErr err => .error (Error.fromSerde err)
      | .json v =>
        match v.get? "statusCode" with
        | some status_code =>
          if policy.retriable_codes.contains status_code.toString then
            .error { kind := .Retryable,
                     source := none,
                     message := some (v.index "message").toString }
          else if strStartsWith status_code.toString "2" then
            .ok v
          else
            .error { kind := .Fatal,
                     source := none,
                     message := some (status_code.toString ++ " "
                                      ++ (v.index "message").toString) }
        | none => .ok v

/-- The message formatted at `src/client.rs:119`. -/
def retriedMessage (n : Nat) : String :=
  "Retried " ++ ToString.toString n ++ " but couldn\x27t recover"

/-- Outcome of a run of the retry loop on a finite oracle: the returned
value (`none` when the oracle was exhausted while the loop was still going
to iterate), the number of `send_request` calls made, and the list of the
sleep durations (in seconds) performed, in order. -/
structure RetryResult where
  result : Option (Except Error Json)
  calls : Nat
  sleeps : List Nat

/-- The body of `Client::send_request_with_retry`'s `loop`, with the mutable
counter `attempts` passed explicitly and one `Transport` observation
consumed per iteration.  Mirrors `src/client.rs:104-124`: success and
`Fatal` return immediately; a `Retryable` failure increments the counter,
escalates to `Fatal` with message `retriedMessage` when the counter equals
the policy's attempt count, and otherwise sleeps `policy.interval` seconds
and iterates. -/
def retryLoopAux (policy : RetryPolicy) (attempts : Nat) :
    List Transport → RetryResult
  | [] => { result := none, calls := 0, sleeps := [] }
  | t :: rest =>
    match send_request policy t with
    | .ok r => { result := some (.ok r), calls := 1, sleeps := [] }
    | .error err =>
      match err.kind with
      | .Fatal => { result := some (.error err), calls := 1, sleeps := [] }
      | .Retryable =>
        let attempts := attempts + 1
        if attempts = policy.attempts then
          { result := some (.error { kind := .Fatal,
                                     source := err.source,
                                     message := some (retriedMessage attempts) }),
            calls := 1, sleeps := [] }
        else
          let r := retryLoopAux policy attempts rest
          { result := r.result, calls := r.calls + 1,
            sleeps := policy.interval :: r.sleeps }

/-- `Client::send_request_with_retry`: the loop started with the counter at
zero. -/
def send_request_with_retry (policy : RetryPolicy) (ts : List Transport) :
    RetryResult :=
  retryLoopAux policy 0 ts

/-- `ResasResponse<T>` from `src/client.rs`: an optional `message` and a
`result` vector.  Note `result` is `Vec<T>`, not `Option<Vec<T>>`, and
carries no serde default. -/
structure ResasResponse (T : Type) where
  message : Option String
  result : List T

/-- Elementwise decoding of a JSON array into records. -/
def decodeList (decT : Json → Option T) : List Json → Option (List T)
  | [] => some []
  | v :: vs =>
    match decT v, decodeList decT vs with
    | some x, some xs => some (x :: xs)
    | _, _ => none

/-- serde deserialization of `ResasResponse<T>` from a JSON value, as derived
for the struct in `src/client.rs`: the value must be an object; `message` is
an `Option<String>` field (absent or `null` give `none`, a string gives
`some`, anything else is an error); `result` is a REQUIRED `Vec<T>` field
(absent or non-array is an error); unknown fields are ignored. -/
def decodeResas (decT : Json → Option T) (v : Json) : Option (ResasResponse T) :=
  match v with
  | .obj fields =>
    let msg : Option (Option String) :=
      match Json.lookupField "message" fields with
      | none => some none
      | some .null => some none
      | some (.str s) => some (some s)
      | some _ => none
    match msg, Json.lookupField "result" fields with
    | some m, some (.arr xs) =>
      match decodeList decT xs with
      | some rs => some { message := m, result := rs }
      | none => none
    | _, _ => none
  | _ => none

/-- `Prefecture` from `src/schema.rs` (`pref_code: u8`, `pref_name: String`,
wire names camel-cased). -/
structure Prefecture where
  pref_code : Nat
  pref_name : String
deriving DecidableEq, Repr

/-- serde deserialization of `Prefecture` from a JSON value: required fields
`prefCode` (an integer fitting `u8`) and `prefName` (a string). -/
def decodePrefecture (v : Json) : Option Prefecture :=
  match v.get? "prefCode", v.get? "prefName" with
  | some (.num n), some (.str s) =>
    if 0 ≤ n ∧ n ≤ 255 then some { pref_code := n.toNat, pref_name := s }
    else none
  | _, _ => none

/-- The fixed endpoint `RESAS_ENDPOINT` of `src/client.rs`. -/
def RESAS_ENDPOINT : String := "https://opendata.resas-portal.go.jp"

/-- The URL construction at the start of `Client::get`. -/
def buildUrl (path : String) (parameters : Option String) : String :=
  let url := RESAS_ENDPOINT ++ "/" ++ path
  match parameters with
  | none => url
  | some p => url ++ "?" ++ p

/-- `Client::get` from `src/client.rs`, with the wire modelled by the
`Transport` observation(s) the attempt(s) consume: one observation `t` when
`with_retry` is false, the stream `t :: rest` when it is true.  The raw text
returned by the chosen request path is then deserialized into the typed
envelope; a deserialization failure becomes `Fatal` through
`From<serde_json::Error>`.  `none` means the retry loop outran the supplied
observations. -/
def Client.get (decT : Json → Option T) (policy : RetryPolicy)
    (t : Transport) (rest : List Transport) (with_retry : Bool) :
    Option (Except Error (ResasResponse T)) :=
  let raw : Option (Except Error Json) :=
    match with_retry with
    | true => (send_request_with_retry policy (t :: rest)).result
    | false => some (send_request policy t)
  raw.map fun r =>
    match r with
    | .error e => .error e
    | .ok v =>
      match decodeResas decT v with
      | some env => .ok env
      | none => .error { kind := .Fatal, source := some .serdeDecode, message := none }

/-! Concrete fixtures used by witnesses and counterexamples. -/

/-- A default `Transport` value (used only to give `List.getD` a default). -/
def dTrans : Transport := .sendErr (.reqwestSend 0)

/-- The HTTP-200 body `\x7b"statusCode":500,"message":"busy"\x7d` of the
spec's end-to-end scenario. -/
def body500 : Json := .obj [("statusCode", .num 500), ("message", .str "busy")]

/-- An HTTP 200 response carrying `body500`. -/
def t500 : Transport := .responded 200 (.json body500)

/-- A structurally possible retry policy with a zero attempt budget (the
`RetryPolicy` struct puts no lower bound on `attempts`). -/
def policyZero : RetryPolicy :=
  { retriable_codes := ["500", "502"], interval := 60, attempts := 0 }

/-- An HTTP-200 body with application-level status 404. -/
def body404 : Json := .obj [("statusCode", .num 404), ("message", .str "not found")]

/-- An HTTP-200 body with no `statusCode` and no `result` field. -/
def bodyNoResult : Json := .obj [("message", .str "ok")]

/-- An HTTP-200 body with a `result` field and no `message` field. -/
def bodyEmptyResult : Json := .obj [("result", .arr [])]

/-- An HTTP-200 body whose `statusCode` is the JSON STRING `"500"`, not the
number 500. -/
def bodyStr500 : Json := .obj [("statusCode", .str "500")]


/-! Helper lemmas about the retry loop. -/

/-- Any error the retry loop ever returns has kind `Fatal`: the loop resolves
`Retryable` failures internally (by retrying or escalating). -/
theorem retryLoop_error_fatal (policy : RetryPolicy) :
    ∀ (ts : List Transport) (c : Nat) (e : Error),
    (retryLoopAux policy c ts).result = some (.error e) → e.kind = .Fatal := by
  intro ts
  induction ts with
  | nil => intro c e h; simp [retryLoopAux] at h
  | cons t rest ih =>
    intro c e h
    rw [retryLoopAux] at h
    cases hs : send_request policy t with
    | ok r => rw [hs] at h; simp at h
    | error err =>
      rw [hs] at h
      obtain ⟨k, src, msg⟩ := err
      cases k with
      | Fatal =>
        simp at h
        rw [← h]
      | Retryable =>
        by_cases hc : c + 1 = policy.attempts
        · simp [hc] at h
          rw [← h]
        · simp [hc] at h
          exact ih (c + 1) e h

/-- With the counter strictly below the attempt budget, the loop makes at
most `attempts - counter` further `send_request` calls. -/
theorem retryLoop_calls_le (policy : RetryPolicy) :
    ∀ (ts : List Transport) (c : Nat), c < policy.attempts →
    (retryLoopAux policy c ts).calls ≤ policy.attempts - c := by
  intro ts
  induction ts with
  | nil => intro c hc; simp [retryLoopAux]
  | cons t rest ih =>
    intro c hc
    rw [retryLoopAux]
    cases hs : send_request policy t with
    | ok r => simp; omega
    | error err =>
      obtain ⟨k, src, msg⟩ := err
      cases k with
      | Fatal => simp; omega
      | Retryable =>
        by_cases hcc : c + 1 = policy.attempts
        · simp [hcc]; omega
        · have hlt : c + 1 < policy.attempts := Nat.lt_of_le_of_ne hc hcc
          have hone := ih (c + 1) hlt
          simp [hcc]
          omega

/-- Every sleep the loop performs lasts exactly the policy interval. -/
theorem retryLoop_sleep_interval (policy : RetryPolicy) :
    ∀ (ts : List Transport) (c : Nat) (d : Nat),
    d ∈ (retryLoopAux policy c ts).sleeps → d = policy.interval := by
  intro ts
  induction ts with
  | nil => intro c d h; simp [retryLoopAux] at h
  | cons t rest ih =>
    intro c d h
    rw [retryLoopAux] at h
    cases hs : send_request policy t with
    | ok r => rw [hs] at h; simp at h
    | error err =>
      rw [hs] at h
      obtain ⟨k, src, msg⟩ := err
      cases k with
      | Fatal => simp at h
      | Retryable =>
        by_cases hc : c + 1 = policy.attempts
        · simp [hc] at h
        · simp [hc] at h
          rcases h with h | h
          · exact h
          · exact ih (c + 1) d h

/-- On every terminating run the loop sleeps exactly once less than it
calls: no sleep follows the final attempt. -/
theorem retryLoop_sleeps_calls (policy : RetryPolicy) :
    ∀ (ts : List Transport) (c : Nat) (r : Except Error Json),
    (retryLoopAux policy c ts).result = some r →
    (retryLoopAux policy c ts).sleeps.length + 1 = (retryLoopAux policy c ts).calls := by
  intro ts
  induction ts with
  | nil => intro c r h; simp [retryLoopAux] at h
  | cons t rest ih =>
    intro c r h
    rw [retryLoopAux] at h ⊢
    cases hs : send_request policy t with
    | ok v => simp
    | error err =>
      rw [hs] at h
      obtain ⟨k, src, msg⟩ := err
      cases k with
      | Fatal => simp
      | Retryable =>
        by_cases hc : c + 1 = policy.attempts
        · simp [hc]
        · simp [hc] at h ⊢
          exact ih (c + 1) r h

/-- When the next `n` attempts (a positive number, completing the budget)
all fail with `Retryable` errors, the loop ends by escalating the last error
to `Fatal` with the `retriedMessage`, after exactly `n` calls and `n - 1`
interval-long sleeps. -/
theorem retryLoop_exhaust (policy : RetryPolicy) :
    ∀ (ts : List Transport) (c n : Nat),
    c + n = policy.attempts → 1 ≤ n → n ≤ ts.length →
    (∀ i, i < n → ∃ e, send_request policy (ts.getD i dTrans) = .error e ∧ e.kind = .Retryable) →
    ∃ eLast, send_request policy (ts.getD (n - 1) dTrans) = .error eLast ∧
      retryLoopAux policy c ts =
        { result := some (.error { kind := .Fatal, source := eLast.source,
                                   message := some (retriedMessage policy.attempts) }),
          calls := n, sleeps := List.replicate (n - 1) policy.interval } := by
  intro ts
  induction ts with
  | nil => intro c n h1 h2 h3 h4; simp at h3; omega
  | cons t rest ih =>
    intro c n hcn h1 hlen hret
    obtain ⟨e0, he0, hk0⟩ := hret 0 (by omega)
    rw [List.getD_cons_zero] at he0
    obtain ⟨k0, src0, msg0⟩ := e0
    cases k0 with
    | Fatal => simp at hk0
    | Retryable =>
    rw [retryLoopAux, he0]
    cases n with
    | zero => omega
    | succ m =>
      by_cases hc : c + 1 = policy.attempts
      · have hm : m = 0 := by omega
        subst hm
        refine ⟨⟨.Retryable, src0, msg0⟩, by simp [he0], ?_⟩
        simp [hc]
      · cases m with
        | zero => omega
        | succ m2 =>
          obtain ⟨eL, heL, hrun⟩ := ih (c + 1) (m2 + 1) (by omega) (by omega)
            (by rw [List.length_cons] at hlen; omega)
            (fun i hi => by
              have hh := hret (i + 1) (by omega)
              rw [List.getD_cons_succ] at hh
              exact hh)
          refine ⟨eL, ?_, ?_⟩
          · rw [show m2 + 1 + 1 - 1 = m2 + 1 by omega, List.getD_cons_succ]
            rw [show m2 + 1 - 1 = m2 by omega] at heL
            exact heL
          · simp only [hc, if_false]
            rw [hrun]
            simp only [Nat.add_sub_cancel]
            rw [List.replicate_succ]

/-! Claim theorems. -/

/-- C1: when every one of the first `attempts` tries fails with a
`Retryable` error and the counter therefore reaches the configured attempt
limit, `send_request_with_retry` (and hence `get` with `with_retry = true`)
returns a `Fatal` error with message `"Retried <attempts> but couldn\x27t
recover"` whose cause is the cause of the last `Retryable` error. -/
theorem C1_retry_exhaustion_fatal {T : Type} (decT : Json → Option T)
    (policy : RetryPolicy) (t : Transport) (rest : List Transport)
    (hpos : 1 ≤ policy.attempts)
    (hlen : policy.attempts ≤ (t :: rest).length)
    (hret : ∀ i, i < policy.attempts →
      ∃ e, send_request policy ((t :: rest).getD i dTrans) = .error e ∧ e.kind = .Retryable) :
    ∃ eLast,
      send_request policy ((t :: rest).getD (policy.attempts - 1) dTrans) = .error eLast
      ∧ eLast.kind = .Retryable
      ∧ (send_request_with_retry policy (t :: rest)).result
        = some (.error { kind := .Fatal, source := eLast.source,
                         message := some (retriedMessage policy.attempts) })
      ∧ Client.get decT policy t rest true
        = some (.error { kind := .Fatal, source := eLast.source,
                         message := some (retriedMessage policy.attempts) }) := by
  obtain ⟨eL, heL, hrun⟩ :=
    retryLoop_exhaust policy (t :: rest) 0 policy.attempts (by omega) hpos hlen hret
  have hkL : eL.kind = .Retryable := by
    obtain ⟨e, he, hk⟩ := hret (policy.attempts - 1) (by omega)
    rw [heL] at he
    rw [← hk]
    exact congrArg Error.kind (Except.error.inj he)
  refine ⟨eL, heL, hkL, ?_, ?_⟩
  · rw [send_request_with_retry, hrun]
  · simp only [Client.get, send_request_with_retry, hrun]
    rfl

/-- C1 witness: the default policy against three consecutive
`statusCode: 500` bodies. -/
theorem C1_witness :
    (send_request_with_retry RetryPolicy.default [t500, t500, t500]).result
      = some (.error { kind := .Fatal, source := none, message := some (retriedMessage 3) })
    ∧ Client.get decodePrefecture RetryPolicy.default t500 [t500, t500] true
      = some (.error { kind := .Fatal, source := none, message := some (retriedMessage 3) }) := by
  obtain ⟨eL, heL, hkL, h1, h2⟩ :=
    C1_retry_exhaustion_fatal decodePrefecture RetryPolicy.default t500 [t500, t500]
      (by decide) (by decide)
      (fun i hi => by
        have hi3 : i < 3 := hi
        interval_cases i <;>
          exact ⟨{ kind := .Retryable, source := none, message := some "\x22busy\x22" },
                 rfl, rfl⟩)
  have heq : eL = { kind := .Retryable, source := none, message := some "\x22busy\x22" } := by
    have h : send_request RetryPolicy.default
        ([t500, t500, t500].getD (RetryPolicy.default.attempts - 1) dTrans)
        = .error { kind := .Retryable, source := none, message := some "\x22busy\x22" } := rfl
    rw [h] at heL
    exact (Except.error.inj heL).symm
  rw [heq] at h1 h2
  exact ⟨h1, h2⟩

/-- C2 (code evaluation): under the default policy an HTTP 500 response is
NOT retried.  `StatusCode`'s `Display` renders `"500 Internal Server
Error"`, which is not an element of `\x7b"500", "502"\x7d`, so the retryable
branch can never fire and `send_request` returns the converted `Fatal` error
(cause = the wrapped status error, no message) instead of the `Retryable`
error with message `"Status code 500"` that the claim describes. -/
theorem C2_http_error_code_eval :
    statusCodeToString 500 = "500 Internal Server Error"
    ∧ RetryPolicy.default.retriable_codes.contains (statusCodeToString 500) = false
    ∧ send_request RetryPolicy.default (.responded 500 (.json (.obj [])))
      = .error { kind := .Fatal, source := some (.reqwestStatus 500), message := none } :=
  ⟨rfl, rfl, rfl⟩

/-- C3: every error observed by a caller of `get` with `with_retry = true`
has kind `Fatal` (so `is_retriable()` is false); `Retryable` errors never
surface on that path. -/
theorem C3_get_retry_only_fatal {T : Type} (decT : Json → Option T)
    (policy : RetryPolicy) (t : Transport) (rest : List Transport) (e : Error)
    (h : Client.get decT policy t rest true = some (.error e)) :
    e.kind = .Fatal ∧ e.is_retriable = false := by
  simp only [Client.get] at h
  cases hr : (send_request_with_retry policy (t :: rest)).result with
  | none => rw [hr] at h; simp at h
  | some r =>
    rw [hr] at h
    cases r with
    | error e0 =>
      simp at h
      have hf := retryLoop_error_fatal policy (t :: rest) 0 e0 hr
      rw [← h]
      exact ⟨hf, by simp [Error.is_retriable, hf]⟩
    | ok v =>
      simp at h
      cases hd : decodeResas decT v with
      | some env => rw [hd] at h; simp at h
      | none =>
        rw [hd] at h
        simp at h
        rw [← h]
        exact ⟨rfl, rfl⟩

/-- C3 witness: the error produced by the exhausted default-policy retry run
is `Fatal` and not retriable. -/
theorem C3_witness :
    ({ kind := .Fatal, source := none, message := some (retriedMessage 3) } : Error).kind = .Fatal
    ∧ ({ kind := .Fatal, source := none,
         message := some (retriedMessage 3) } : Error).is_retriable = false :=
  C3_get_retry_only_fatal decodePrefecture RetryPolicy.default t500 [t500, t500] _ rfl

/-- C4 counterexample: the claim quantifies over every retry policy, but for
a policy with `attempts = 0` the loop counter (checked with `==` after the
increment) never reaches the limit, and two retryable outcomes already cost
two calls — more than the configured zero attempts. -/
theorem C4_counterexample :
    (send_request_with_retry policyZero [t500, t500]).calls = 2
    ∧ ¬ ((send_request_with_retry policyZero [t500, t500]).calls ≤ policyZero.attempts) :=
  ⟨rfl, by decide⟩

/-- C4 as amended: for every retry policy with a POSITIVE attempt count,
`send_request_with_retry` performs at most `attempts` calls, every sleep
lasts the policy interval, a terminating run sleeps exactly once less than
it calls, and the default policy against three retryable bodies performs
exactly 3 calls with sleeps `[60, 60]` and returns the escalated `Fatal`. -/
theorem C4_amended_budget (policy : RetryPolicy) (ts : List Transport)
    (hpos : 1 ≤ policy.attempts) :
    (send_request_with_retry policy ts).calls ≤ policy.attempts
    ∧ (∀ d ∈ (send_request_with_retry policy ts).sleeps, d = policy.interval)
    ∧ (∀ r, (send_request_with_retry policy ts).result = some r →
        (send_request_with_retry policy ts).sleeps.length + 1
          = (send_request_with_retry policy ts).calls)
    ∧ send_request_with_retry RetryPolicy.default [t500, t500, t500]
      = { result := some (.error { kind := .Fatal, source := none,
                                   message := some (retriedMessage 3) }),
          calls := 3, sleeps := [60, 60] } := by
  refine ⟨?_, ?_, ?_, rfl⟩
  · have h := retryLoop_calls_le policy ts 0 (by omega)
    simpa [send_request_with_retry] using h
  · intro d hd
    exact retryLoop_sleep_interval policy ts 0 d hd
  · intro r hr
    exact retryLoop_sleeps_calls policy ts 0 r hr

/-- C4 witness: the amended budget bound at the default policy and the
three-attempt scenario. -/
theorem C4_witness :
    (send_request_with_retry RetryPolicy.default [t500, t500, t500]).calls
      ≤ RetryPolicy.default.attempts
    ∧ send_request_with_retry RetryPolicy.default [t500, t500, t500]
      = { result := some (.error { kind := .Fatal, source := none,
                                   message := some (retriedMessage 3) }),
          calls := 3, sleeps := [60, 60] } :=
  ⟨(C4_amended_budget RetryPolicy.default [t500, t500, t500] (by decide)).1,
   (C4_amended_budget RetryPolicy.default [t500, t500, t500] (by decide)).2.2.2⟩

/-- C5 counterexample: for the body with `message` field `"busy"`, the
`Retryable` error's message is the JSON rendering `"\x22busy\x22"` — six
characters including the quotation marks — not the field content `busy`
itself, because the code stores `response_json["message"].to_string()`. -/
theorem C5_counterexample :
    send_request RetryPolicy.default t500
      = .error { kind := .Retryable, source := none, message := some "\x22busy\x22" }
    ∧ ("\x22busy\x22" : String) ≠ "busy" :=
  ⟨rfl, by decide⟩

/-- C5 as amended: an HTTP-success body whose `statusCode` stringifies into
the retryable set yields a `Retryable` error with no cause and with message
the JSON RENDERING of the body's `message` field (surrounding quotes
included for string fields), and `get` with `with_retry = false` returns
that error unchanged. -/
theorem C5_amended_retryable_body {T : Type} (decT : Json → Option T)
    (policy : RetryPolicy) (status : Nat) (v status_code : Json) (rest : List Transport)
    (hstatus : isHttpError status = false)
    (hsc : v.get? "statusCode" = some status_code)
    (hmem : policy.retriable_codes.contains status_code.toString = true) :
    send_request policy (.responded status (.json v))
      = .error { kind := .Retryable, source := none,
                 message := some (v.index "message").toString }
    ∧ Client.get decT policy (.responded status (.json v)) rest false
      = some (.error { kind := .Retryable, source := none,
                       message := some (v.index "message").toString }) := by
  have h1 : send_request policy (.responded status (.json v))
      = .error { kind := .Retryable, source := none,
                 message := some (v.index "message").toString } := by
    have hmem2 : status_code.toString ∈ policy.retriable_codes := by simpa using hmem
    simp [send_request, hstatus, hsc, hmem2]
  exact ⟨h1, by simp [Client.get, h1]⟩

/-- C5 witness: the default policy and the `statusCode: 500` body. -/
theorem C5_witness :
    send_request RetryPolicy.default (.responded 200 (.json body500))
      = .error { kind := .Retryable, source := none,
                 message := some (body500.index "message").toString }
    ∧ Client.get decodePrefecture RetryPolicy.default (.responded 200 (.json body500)) [] false
      = some (.error { kind := .Retryable, source := none,
                       message := some (body500.index "message").toString }) :=
  C5_amended_retryable_body decodePrefecture RetryPolicy.default 200 body500 (.num 500) []
    rfl rfl rfl

/-- C6: an HTTP-success body whose `statusCode` is neither in the retryable
set nor `"2"`-prefixed makes `send_request`, and `get` with
`with_retry = false`, return a `Fatal` error whose message is the rendering
of `statusCode`, a space, and the rendering of the body's `message`
field. -/
theorem C6_nonretryable_statusCode_fatal {T : Type} (decT : Json → Option T)
    (policy : RetryPolicy) (status : Nat) (v status_code : Json) (rest : List Transport)
    (hstatus : isHttpError status = false)
    (hsc : v.get? "statusCode" = some status_code)
    (hmem : policy.retriable_codes.contains status_code.toString = false)
    (h2 : strStartsWith status_code.toString "2" = false) :
    send_request policy (.responded status (.json v))
      = .error { kind := .Fatal, source := none,
                 message := some (status_code.toString ++ " " ++ (v.index "message").toString) }
    ∧ Client.get decT policy (.responded status (.json v)) rest false
      = some (.error { kind := .Fatal, source := none,
                       message := some (status_code.toString ++ " "
                                        ++ (v.index "message").toString) }) := by
  have h1 : send_request policy (.responded status (.json v))
      = .error { kind := .Fatal, source := none,
                 message := some (status_code.toString ++ " " ++ (v.index "message").toString) } := by
    have hmem2 : status_code.toString ∉ policy.retriable_codes := by simpa using hmem
    simp [send_request, hstatus, hsc, hmem2, h2]
  exact ⟨h1, by simp [Client.get, h1]⟩

/-- C6 witness: the `statusCode: 404` body under the default policy; the
message is `"404 "` followed by the rendered `message` field. -/
theorem C6_witness :
    send_request RetryPolicy.default (.responded 200 (.json body404))
      = .error { kind := .Fatal, source := none,
                 message := some ((Json.num 404).toString ++ " "
                                  ++ (body404.index "message").toString) }
    ∧ Client.get decodePrefecture RetryPolicy.default (.responded 200 (.json body404)) [] false
      = some (.error { kind := .Fatal, source := none,
                       message := some ((Json.num 404).toString ++ " "
                                        ++ (body404.index "message").toString) }) :=
  C6_nonretryable_statusCode_fatal decodePrefecture RetryPolicy.default 200 body404 (.num 404) []
    rfl rfl rfl rfl

/-- C7 counterexample: a `statusCode`-free HTTP-success body WITHOUT a
`result` field does not yield a successful envelope — `ResasResponse.result`
is `Vec<T>`, not optional, so typed deserialization fails and `get` returns
a `Fatal` error. -/
theorem C7_counterexample :
    Client.get decodePrefecture RetryPolicy.default (.responded 200 (.json bodyNoResult)) [] false
      = some (.error { kind := .Fatal, source := some .serdeDecode, message := none }) :=
  rfl

/-- C7 as amended: a `statusCode`-free HTTP-success body is returned by
`send_request` unchanged and `get` yields exactly its typed
deserialization; the `message` field is optional (a body with only `result`
decodes successfully) but the `result` field is REQUIRED (a body without it
fails to decode). -/
theorem C7_amended_envelope {T : Type} (decT : Json → Option T)
    (policy : RetryPolicy) (status : Nat) (v : Json) (rest : List Transport)
    (hstatus : isHttpError status = false)
    (hsc : v.get? "statusCode" = none) :
    (send_request policy (.responded status (.json v)) = .ok v
     ∧ Client.get decT policy (.responded status (.json v)) rest false
       = some (match decodeResas decT v with
               | some env => Except.ok env
               | none => Except.error { kind := .Fatal, source := some .serdeDecode,
                                        message := none }))
    ∧ decodeResas decodePrefecture bodyEmptyResult = some { message := none, result := [] }
    ∧ decodeResas decodePrefecture bodyNoResult = none := by
  have h1 : send_request policy (.responded status (.json v)) = .ok v := by
    simp [send_request, hstatus, hsc]
  refine ⟨⟨h1, ?_⟩, rfl, rfl⟩
  simp [Client.get, h1]

/-- C7 witness: a body with an empty `result` and no `message` decodes to the
successful envelope. -/
theorem C7_witness :
    Client.get decodePrefecture RetryPolicy.default (.responded 200 (.json bodyEmptyResult)) [] false
      = some (.ok { message := none, result := [] }) := by
  have h := (C7_amended_envelope decodePrefecture RetryPolicy.default 200 bodyEmptyResult []
    rfl rfl).1.2
  rw [h]
  rfl

/-- C8: `to_fatal` returns a new error with kind `Fatal`, the cause the
original error held before the call, and the supplied message (the original
message is discarded); afterwards the original no longer holds the cause
(it was moved, not copied). -/
theorem C8_to_fatal_moves_cause (e : Error) (m : Option String) :
    (e.to_fatal m).1.kind = .Fatal
    ∧ (e.to_fatal m).1.source = e.source
    ∧ (e.to_fatal m).1.message = m
    ∧ (e.to_fatal m).2.source = none
    ∧ (e.to_fatal m).2.kind = e.kind
    ∧ (e.to_fatal m).2.message = e.message :=
  ⟨rfl, rfl, rfl, rfl, rfl, rfl⟩

/-- C9 counterexample: the `Display` in `src/error.rs` renders the kind
prefix with an exclamation mark — `"Fatal error! "` — not the colon form
`"Fatal error: "` the claim states for every error value. -/
theorem C9_counterexample :
    Error.fmtError { kind := .Fatal, source := none, message := none } = "Fatal error! "
    ∧ "Fatal error! " ≠ "Fatal error: " :=
  ⟨rfl, by decide⟩

/-- C9 as amended: both `Display` impls render kind prefix, then the message
if present, then the cause rendering if present (message before cause, only
the prefix when neither exists) — but the `src/client.rs` impl spells the
prefix `"<Kind> error: "` while the `src/error.rs` impl spells it
`"<Kind> error! "`. -/
theorem C9_amended_display (e : Error) :
    Error.fmtClient e
      = (match e.kind with
         | .Fatal => "Fatal error: "
         | .Retryable => "Retryable error: ")
        ++ e.message.getD ""
        ++ (match e.source with
            | some source => source.display
            | none => "")
    ∧ Error.fmtError e
      = (match e.kind with
         | .Fatal => "Fatal error! "
         | .Retryable => "Retryable error! ")
        ++ e.message.getD ""
        ++ (match e.source with
            | some source => source.display
            | none => "") := by
  obtain ⟨k, src, msg⟩ := e
  cases k <;> cases src <;> cases msg <;>
    simp [Error.fmtClient, Error.fmtError, String.append_empty, String.append_assoc]

/-- C10: when an HTTP-success body carries `statusCode` as a JSON string,
its stringification keeps the surrounding quotation marks, so (for any
policy whose codes do not begin with a quotation mark, the default
included) it never matches the retryable set, never passes the `"2"`-prefix
success test, and `send_request` returns the `Fatal` branch error. -/
theorem C10_string_statusCode_never_retryable (policy : RetryPolicy)
    (status : Nat) (v : Json) (s : String)
    (hpol : ∀ code ∈ policy.retriable_codes, code.data.head? ≠ some '"')
    (hstatus : isHttpError status = false)
    (hsc : v.get? "statusCode" = some (.str s)) :
    policy.retriable_codes.contains (Json.toString (.str s)) = false
    ∧ strStartsWith (Json.toString (.str s)) "2" = false
    ∧ send_request policy (.responded status (.json v))
      = .error { kind := .Fatal, source := none,
                 message := some (Json.toString (.str s) ++ " "
                                  ++ (v.index "message").toString) } := by
  have hdata : (Json.toString (.str s)).data = '"' :: (Json.escapeList s.data ++ ['"']) := rfl
  have hne : ∀ code ∈ policy.retriable_codes, Json.toString (.str s) ≠ code := by
    intro code hcode heq
    apply hpol code hcode
    rw [← heq, hdata]
    rfl
  have hcontains : policy.retriable_codes.contains (Json.toString (.str s)) = false := by
    by_contra hcon
    simp only [Bool.not_eq_false] at hcon
    have hmem : Json.toString (.str s) ∈ policy.retriable_codes := by
      have hc2 : (policy.retriable_codes).elem (Json.toString (.str s)) = true := hcon
      exact List.elem_iff.mp hc2
    exact hne _ hmem rfl
  have hsw : strStartsWith (Json.toString (.str s)) "2" = false := by
    simp only [strStartsWith]
    rw [hdata]
    simp [List.isPrefixOf]
  refine ⟨hcontains, hsw, ?_⟩
  have hmem2 : (Json.str s).toString ∉ policy.retriable_codes := fun hmem => hne _ hmem rfl
  simp [send_request, hstatus, hsc, hmem2, hsw]

/-- C10 witness: the body `\x7b"statusCode":"500"\x7d` under the default
policy: the rendering `"\x22500\x22"` matches nothing and the result is the
`Fatal` branch error. -/
theorem C10_witness :
    RetryPolicy.default.retriable_codes.contains (Json.toString (.str "500")) = false
    ∧ strStartsWith (Json.toString (.str "500")) "2" = false
    ∧ send_request RetryPolicy.default (.responded 200 (.json bodyStr500))
      = .error { kind := .Fatal, source := none,
                 message := some (Json.toString (.str "500") ++ " "
                                  ++ (bodyStr500.index "message").toString) } :=
  C10_string_statusCode_never_retryable RetryPolicy.default 200 bodyStr500 "500"
    (by decide) rfl rfl
